import Mathlib

/-!
Verification of the grading and aggregation logic of the schoolApp repository
(src/schoolApp/models.py, forms.py, views.py), shallowly embedded in Lean.

Conventions of the embedding:
- Django model rows become Lean structures; primary keys are `Nat`.
- `DecimalField` values (`Score.score_achieved`, question points) become `Rat`.
- Database tables become `List` of rows; the `unique_together` constraints of
  models.py are enforced by the `create...` operations, which fail (raising the
  IntegrityError that the surrounding `transaction.atomic` block turns into a
  full rollback) when a duplicate key is inserted.
- A view handler that runs inside `transaction.atomic` is modelled by its net
  effect: `Except` tracks an exception escaping the block, in which case the
  database is returned unchanged (rollback).
-/

namespace SchoolApp

/-! ## Data model (models.py) -/

/-- Attendance.ATTENDANCE_STATUS_CHOICES: Present, Absent, Late, Excused
(models.py lines 321-326). -/
inductive AttStatus where
  | P
  | A
  | L
  | E
deriving DecidableEq, Repr

/-- Assignment (models.py lines 216-259): subject, class, term, and a
`max_score` PositiveIntegerField. -/
structure Assignment where
  id : Nat
  subjectName : String
  classId : Nat
  termId : Nat
  max_score : Nat
deriving DecidableEq, Repr

/-- Score (models.py lines 276-312): `score_achieved` is a DecimalField,
embedded as `Rat`; `unique_together = (student, assignment)`. -/
structure ScoreRow where
  id : Nat
  studentId : Nat
  assignmentId : Nat
  score_achieved : Rat
  recorded_by : Option Nat
deriving DecidableEq, Repr

/-- Attendance (models.py lines 320-367): `unique_together = (student, date,
_class)`; `timestamp` has `auto_now_add=True`, so it is set at row creation
and never touched by later saves. -/
structure AttendanceRow where
  id : Nat
  studentId : Nat
  date : Nat
  classId : Nat
  status : AttStatus
  recorded_by : Option Nat
  timestamp : Nat
deriving DecidableEq, Repr

/-- Submission (models.py lines 381-392): `unique_together = (assignment,
student)`, `is_graded` boolean. -/
structure SubmissionRow where
  id : Nat
  assignmentId : Nat
  studentId : Nat
  submission_text : String
  is_graded : Bool
deriving DecidableEq, Repr

/-- Modelled from the spec: the Question model is referenced by views.py
(`question.points`, `question.id`, ordered set of questions per assignment)
but its declaration is missing from src/. The spec says an MCQ assignment
"owns an ordered set of questions, each with choices", each question carrying
a point value. -/
structure Question where
  id : Nat
  question_text : String
  points : Rat
deriving DecidableEq, Repr

/-- Modelled from the spec: the Choice model is missing from src/; views.py
reads `chosen_choice.is_correct` and the spec says each question's choices
have "exactly one of which must be marked correct". -/
structure Choice where
  id : Nat
  is_correct : Bool
deriving DecidableEq, Repr

/-- Modelled from the spec: the StudentAnswer model is missing from src/;
views.py creates it with fields submission, question, chosen_choice,
is_correct and points_awarded (views.py lines 1004-1010). -/
structure StudentAnswerRow where
  id : Nat
  submissionId : Nat
  questionId : Nat
  chosenChoiceId : Option Nat
  is_correct : Bool
  points_awarded : Rat
deriving DecidableEq, Repr

/-! ## Averaging (views.py: generate_report_card_pdf lines 675-710,
parent_dashboard lines 85-96, student_dashboard lines 844-856)

The querysets iterated by these views join a Score row with its assignment's
`max_score` and subject name; one element of such a queryset is embedded as
`ScoredAssignment`. -/

/-- One row of the queryset `Score.objects.filter(student=..,
assignment__term=..)` together with the fields of `score.assignment` that the
aggregation code reads. -/
structure ScoredAssignment where
  score_achieved : Rat
  max_score : Nat
  subjectName : String
deriving DecidableEq, Repr

/-- The accumulator loop of generate_report_card_pdf (views.py lines 685-697):
`total_term_score += score.score_achieved;
total_max_score_possible += score.assignment.max_score`. -/
def reportTotals (scores : List ScoredAssignment) : Rat × Rat :=
  scores.foldl (fun acc s => (acc.1 + s.score_achieved, acc.2 + (s.max_score : Rat))) (0, 0)

/-- views.py line 710: `overall_average = (total_term_score /
total_max_score_possible) * 100 if total_max_score_possible > 0 else 0`. -/
def overallAverage (scores : List ScoredAssignment) : Rat :=
  let t := reportTotals scores
  if 0 < t.2 then t.1 / t.2 * 100 else 0

/-- Sum of `score_achieved` over a queryset (`aggregate(Sum('score_achieved'))
... or 0`, which is 0 on an empty queryset). -/
def totalAchieved (scores : List ScoredAssignment) : Rat :=
  (scores.map (fun s => s.score_achieved)).sum

/-- Sum of `score.assignment.max_score` over a queryset (the Python generator
`sum(score.assignment.max_score for score in ...)`). -/
def totalMaxScore (scores : List ScoredAssignment) : Rat :=
  (scores.map (fun s => (s.max_score : Rat))).sum

/-- views.py line 700: `scores.filter(assignment__subject__name=subject_name)`. -/
def subjectScores (scores : List ScoredAssignment) (name : String) : List ScoredAssignment :=
  scores.filter (fun s => s.subjectName = name)

/-- views.py lines 699-707: per-subject report-card average, the subject-scoped
ratio with the same division-by-zero guard. -/
def subjectAverage (scores : List ScoredAssignment) (name : String) : Rat :=
  let fs := subjectScores scores name
  let sumScore := totalAchieved fs
  let sumMax := totalMaxScore fs
  if 0 < sumMax then sumScore / sumMax * 100 else 0

/-- Python's `round(x, 2)` on the Decimal percentage: round half to even at
the second decimal place. The floor and fractional part pick the nearer
integer; an exact tie goes to the even neighbour. -/
def halfEvenRound (q : Rat) : Int :=
  let f := ⌊q⌋
  let r := q - (f : Rat)
  if r < 1 / 2 then f
  else if 1 / 2 < r then f + 1
  else if f % 2 = 0 then f else f + 1

/-- Rounding a rational to two decimal places, half to even (`round(avg, 2)`). -/
def roundTo2 (q : Rat) : Rat :=
  ((halfEvenRound (q * 100) : Rat)) / 100

/-- parent_dashboard lines 89-96 and student_dashboard lines 849-856: the term
average shown on the dashboards; the positive branch additionally applies
`round(average, 2)`, the zero branch assigns the literal 0 without ever
performing the division. -/
def dashboardTermAverage (scores : List ScoredAssignment) : Rat :=
  let total := totalAchieved scores
  let totalMax := totalMaxScore scores
  if 0 < totalMax then roundTo2 (total / totalMax * 100) else 0

/-! ## Remark derivation (views.py lines 712-716) -/

/-- views.py lines 712-716: `remark = "Good performance."` then reassigned by
`if overall_average < 50` / `elif overall_average < 70`. -/
def remark (average : Rat) : String :=
  if average < 50 then "Needs significant improvement."
  else if average < 70 then "Satisfactory performance."
  else "Good performance."

/-! ## Manual score entry (forms.py ScoreForm lines 54-86, views.py
input_scores lines 381-450 and save_scores_ajax lines 453-503) -/

/-- Raw content of the `score_achieved` DecimalField of one posted ScoreForm:
either input that fails field-level cleaning (not a decimal number) or a
parsed optional decimal (the field may be left empty). -/
inductive RawDecimal where
  | malformed
  | value (v : Option Rat)
deriving DecidableEq, Repr

/-- One form of the `input_scores` formset after field cleaning.
ScoreForm.Meta.fields = ['id', 'student', 'score_achieved'] (forms.py
line 63); there is no `assignment` field. -/
structure ScoreFormInput where
  idField : Option Nat
  student : Option Nat
  score_achieved : RawDecimal
deriving DecidableEq, Repr

/-- The cleaned `score_achieved` value of a form whose field cleaning
succeeded. -/
def cleanedScore (f : ScoreFormInput) : Option Rat :=
  match f.score_achieved with
  | RawDecimal.malformed => none
  | RawDecimal.value v => v

/-- forms.py line 79: `assignment = self.cleaned_data.get('assignment')`.
The ScoreForm has fields ['id', 'student', 'score_achieved'] plus the
display-only `student_name`; `assignment` is not among them, so the
dictionary lookup yields None on every submission. -/
def scoreFormAssignmentInCleanedData : Option Assignment := none

/-- forms.py lines 77-86, ScoreForm.clean_score_achieved: the range check
runs only when both the (never-present) `assignment` key and the score are
available; otherwise the cleaned score is returned unvalidated. -/
def cleanScoreAchieved (score : Option Rat) (assignment : Option Assignment) :
    Except String (Option Rat) :=
  match assignment, score with
  | some a, some s =>
      if s < 0 then Except.error "Score cannot be negative."
      else if (a.max_score : Rat) < s then
        Except.error "Score cannot exceed the maximum."
      else Except.ok (some s)
  | _, _ => Except.ok score

/-- Validity of one ScoreForm: every field cleans (the decimal parses, the
required hidden `student` is present) and `clean_score_achieved` does not
raise. -/
def scoreFormIsValid (f : ScoreFormInput) : Bool :=
  (match f.score_achieved with
   | RawDecimal.malformed => false
   | RawDecimal.value _ => true) &&
  f.student.isSome &&
  (cleanScoreAchieved (cleanedScore f) scoreFormAssignmentInCleanedData).isOk

/-- Auto-increment primary key for a fresh Score row. -/
def nextScoreId (db : List ScoreRow) : Nat :=
  db.foldl (fun m r => max m r.id) 0 + 1

/-- The (student, assignment) key of the Score table's unique_together
constraint. -/
def scoreKey (aId sId : Nat) (r : ScoreRow) : Bool :=
  r.studentId = sId && r.assignmentId = aId

/-- Score.objects.create: models.py line 310 declares `unique_together =
(student, assignment)`, so inserting a duplicate key raises an
IntegrityError. -/
def createScore (db : List ScoreRow) (aId sId : Nat) (v : Rat) (teacher : Nat) :
    Except String (List ScoreRow) :=
  if db.any (scoreKey aId sId) then
    Except.error "IntegrityError: UNIQUE constraint failed (student, assignment)"
  else Except.ok (db ++ [⟨nextScoreId db, sId, aId, v, some teacher⟩])

/-- Body of the persistence loop of input_scores (views.py lines 409-427):
skip a form with an empty score; update the row named by the cleaned `id`
(Score.objects.get raises DoesNotExist when it is absent); otherwise create a
fresh row. -/
def applyScoreForm (a : Assignment) (teacher : Nat) (db : List ScoreRow)
    (f : ScoreFormInput) : Except String (List ScoreRow) :=
  match cleanedScore f with
  | none => Except.ok db
  | some s =>
    match f.idField with
    | some scoreId =>
        if db.any (fun r => r.id = scoreId) then
          Except.ok (db.map (fun r =>
            if r.id = scoreId then
              { r with score_achieved := s, recorded_by := some teacher }
            else r))
        else Except.error "Score matching query does not exist."
    | none => createScore db a.id (f.student.getD 0) s teacher

/-- views.py lines 407-431: the POST branch of input_scores. The writes run
only when `formset.is_valid()`; they sit inside `transaction.atomic()`, so an
exception from any row rolls the whole batch back. Returns the resulting
score table and whether the request succeeded. -/
def inputScoresPost (a : Assignment) (teacher : Nat) (db : List ScoreRow)
    (forms : List ScoreFormInput) : List ScoreRow × Bool :=
  if forms.all scoreFormIsValid then
    match forms.foldlM (applyScoreForm a teacher) db with
    | Except.ok db2 => (db2, true)
    | Except.error _ => (db, false)
  else (db, false)

/-- Score.objects.update_or_create keyed on (assignment, student)
(views.py lines 486-493 and 1014-1021): overwrite the existing row's value
and recorder, or insert a fresh row when the key is absent. -/
def updateOrCreateScore (db : List ScoreRow) (aId sId : Nat) (v : Rat)
    (teacher : Nat) : List ScoreRow :=
  if db.any (scoreKey aId sId) then
    db.map (fun r =>
      if scoreKey aId sId r then
        { r with score_achieved := v, recorded_by := some teacher }
      else r)
  else db ++ [⟨nextScoreId db, sId, aId, v, some teacher⟩]

/-- views.py lines 453-503, save_scores_ajax: the single-score AJAX endpoint.
It rejects a score for an already graded submission, a negative score, and a
score above `assignment.max_score`; otherwise it writes through
`update_or_create` and flags any existing submission as graded. -/
def saveScoresAjax (a : Assignment) (teacher : Nat) (db : List ScoreRow)
    (submissions : List SubmissionRow) (studentId : Nat) (score : Rat) :
    List ScoreRow × List SubmissionRow × Bool :=
  let existingSub := submissions.find? (fun s =>
    s.assignmentId = a.id && s.studentId = studentId)
  let graded := match existingSub with
    | some s => s.is_graded
    | none => false
  if graded then (db, submissions, false)
  else if score < 0 then (db, submissions, false)
  else if (a.max_score : Rat) < score then (db, submissions, false)
  else
    (updateOrCreateScore db a.id studentId score teacher,
     submissions.map (fun s =>
       if s.assignmentId = a.id && s.studentId = studentId then
         { s with is_graded := true }
       else s),
     true)

/-! ## Attendance marking (forms.py AttendanceForm and BaseAttendanceFormSet
lines 90-204, views.py mark_attendance lines 522-584 and save_attendance_ajax
lines 587-649) -/

/-- One form of the attendance formset on a POST. `already_marked` is the
flag set by BaseAttendanceFormSet._construct_form (forms.py lines 178-197)
when the row's initial data carries an existing Attendance id; that same
code sets `empty_permitted` on exactly those forms, so one flag models both.
`has_changed` is the framework's comparison of the submitted data against
the initial data. A cleaned field is None when it is missing from the POST
or fails field cleaning. -/
structure AttendanceFormPost where
  already_marked : Bool
  has_changed : Bool
  studentField : Option Nat
  statusField : Option AttStatus
deriving DecidableEq, Repr

/-- The model row bound to an attendance form. BaseAttendanceFormSet's
_construct_form forwards only `initial`, `student_obj_for_display` and
`already_marked` to the form — never an `instance` — so every form carries a
fresh unsaved Attendance whose pk is None: no stored row is ever bound. -/
def attendanceFormBoundRow (_f : AttendanceFormPost) : Option AttendanceRow :=
  none

/-- Status of the fresh unsaved Attendance instance backing every form: the
model default 'P' (models.py line 340). AttendanceForm.clean_status
(forms.py lines 134-142) returns `self.instance.status` for an
already-marked form. -/
def attendanceInstanceDefaultStatus : AttStatus := AttStatus.P

/-- Cleaned data of one attendance form. Django's full_clean short-circuits
an empty-permitted unchanged form, leaving cleaned_data empty; otherwise the
cleaned student is the submitted one and the cleaned status is what
clean_status returns: the fresh instance's default status when
`already_marked`, the submitted choice otherwise. -/
def attendanceCleanedData (f : AttendanceFormPost) : Option (Nat × AttStatus) :=
  if f.already_marked && !f.has_changed then none
  else
    match f.studentField, f.statusField with
    | some s, some st =>
        some (s, if f.already_marked then attendanceInstanceDefaultStatus else st)
    | _, _ => none

/-- Validity of one attendance form: an empty-permitted unchanged form is
valid with empty cleaned_data; any other form needs both required fields to
clean. -/
def attendanceFormIsValid (f : AttendanceFormPost) : Bool :=
  (f.already_marked && !f.has_changed) ||
    (f.studentField.isSome && f.statusField.isSome)

/-- Auto-increment primary key for a fresh Attendance row. -/
def nextAttendanceId (db : List AttendanceRow) : Nat :=
  db.foldl (fun m r => max m r.id) 0 + 1

/-- Attendance.objects.create: models.py line 365 declares `unique_together =
(student, date, _class)`, so inserting a duplicate key raises an
IntegrityError; `timestamp` is set on creation (auto_now_add). -/
def createAttendance (db : List AttendanceRow) (sId date classId : Nat)
    (st : AttStatus) (teacher : Nat) (now : Nat) :
    Except String (List AttendanceRow) :=
  if db.any (fun r => r.studentId = sId && r.date = date && r.classId = classId) then
    Except.error "IntegrityError: UNIQUE constraint failed (student, date, _class)"
  else Except.ok (db ++ [⟨nextAttendanceId db, sId, date, classId, st, some teacher, now⟩])

/-- Body of the save_attendance_ajax loop (views.py lines 606-634): skip an
empty-permitted unchanged form, skip a form with empty cleaned_data, update
the bound row in place only when its stored status differs from the cleaned
one, and otherwise create a fresh row. A save never touches `timestamp`
(auto_now_add). -/
def saveAttendanceAjaxStep (teacher date classId now : Nat)
    (db : List AttendanceRow) (f : AttendanceFormPost) :
    Except String (List AttendanceRow) :=
  if f.already_marked && !f.has_changed then Except.ok db
  else
    match attendanceCleanedData f with
    | none => Except.ok db
    | some (student, status) =>
      match attendanceFormBoundRow f with
      | some row =>
          if row.status ≠ status then
            Except.ok (db.map (fun r =>
              if r.id = row.id then
                { r with status := status, recorded_by := some teacher }
              else r))
          else Except.ok db
      | none => createAttendance db student date classId status teacher now

/-- views.py lines 596-649: the POST handling of save_attendance_ajax. The
loop runs inside `transaction.atomic()` and any exception (in particular an
IntegrityError from a duplicate insert) rolls the whole batch back and
returns an error response. An invalid formset writes nothing. -/
def saveAttendanceAjaxPost (teacher date classId now : Nat)
    (db : List AttendanceRow) (forms : List AttendanceFormPost) :
    List AttendanceRow × Bool :=
  if forms.all attendanceFormIsValid then
    match forms.foldlM (saveAttendanceAjaxStep teacher date classId now) db with
    | Except.ok db2 => (db2, true)
    | Except.error _ => (db, false)
  else (db, false)

/-- Body of the mark_attendance loop (views.py lines 545-564): skip a form
with empty cleaned_data; for a bound row save the submitted status and
recorder unconditionally; otherwise create a fresh row. -/
def markAttendanceStep (teacher date classId now : Nat)
    (db : List AttendanceRow) (f : AttendanceFormPost) :
    Except String (List AttendanceRow) :=
  match attendanceCleanedData f with
  | none => Except.ok db
  | some (student, status) =>
    match attendanceFormBoundRow f with
    | some row =>
        Except.ok (db.map (fun r =>
          if r.id = row.id then
            { r with status := status, recorded_by := some teacher }
          else r))
    | none => createAttendance db student date classId status teacher now

/-- views.py lines 535-568: the POST handling of mark_attendance. Writes run
only when the formset is valid, inside `transaction.atomic()`, so an
exception from any row (the view has no try/except; the atomic block still
rolls back) leaves the table unchanged. -/
def markAttendancePost (teacher date classId now : Nat)
    (db : List AttendanceRow) (forms : List AttendanceFormPost) :
    List AttendanceRow × Bool :=
  if forms.all attendanceFormIsValid then
    match forms.foldlM (markAttendanceStep teacher date classId now) db with
    | Except.ok db2 => (db2, true)
    | Except.error _ => (db, false)
  else (db, false)

/-! ## Assignment submission and MCQ auto-grading (views.py
submit_assignment lines 869-1051), MCQ question editing (views.py
create_mcq_questions lines 275-378) -/

/-- The state touched by submit_assignment: submissions, per-question
answers, scores. -/
structure GradeState where
  submissions : List SubmissionRow
  answers : List StudentAnswerRow
  scores : List ScoreRow
deriving DecidableEq, Repr

/-- views.py line 881: `Submission.objects.filter(assignment=assignment,
student=student_profile).first()`. -/
def findSubmission (subs : List SubmissionRow) (aId sId : Nat) :
    Option SubmissionRow :=
  subs.find? (fun s => s.assignmentId = aId && s.studentId = sId)

/-- views.py line 884: `is_graded = existing_submission and
existing_submission.is_graded`, computed once and used by both the text/file
and the MCQ branch. -/
def isGradedFor (st : GradeState) (aId sId : Nat) : Bool :=
  match findSubmission st.submissions aId sId with
  | some s => s.is_graded
  | none => false

/-- Auto-increment primary key for a fresh Submission row. -/
def nextSubmissionId (subs : List SubmissionRow) : Nat :=
  subs.foldl (fun m r => max m r.id) 0 + 1

/-- views.py lines 886-899, the text/file branch of submit_assignment on
POST: a graded submission is rejected with an error message and nothing is
written; otherwise the form saves over the existing submission, or creates
one, with `is_graded = False`. The SubmissionForm class is missing from src/;
its save is modelled from the spec and from the view's usage with
`instance=existing_submission`. -/
def submitTextFilePost (st : GradeState) (aId sId : Nat) (text : String) :
    GradeState × Bool :=
  if isGradedFor st aId sId then (st, false)
  else
    match findSubmission st.submissions aId sId with
    | some s =>
        ({ st with submissions := st.submissions.map (fun r =>
            if r.id = s.id then
              { r with submission_text := text, is_graded := false }
            else r) }, true)
    | none =>
        ({ st with submissions := st.submissions ++
            [⟨nextSubmissionId st.submissions, aId, sId, text, false⟩] }, true)

/-- views.py lines 988-993: a chosen choice earns `(True, question.points)`
exactly when it is marked correct; an unanswered question (`chosen_choice`
is None, which is falsy in the `if chosen_choice and
chosen_choice.is_correct` test) earns `(False, 0.0)` without any error. -/
def gradeAnswer (q : Question) (chosen : Option Choice) : Bool × Rat :=
  match chosen with
  | some c => if c.is_correct then (true, q.points) else (false, 0)
  | none => (false, 0)

/-- views.py lines 996-1010: the StudentAnswer row written for one question
of the submission. -/
def mkStudentAnswerRow (ansId subId : Nat) (q : Question)
    (chosen : Option Choice) : StudentAnswerRow :=
  let g := gradeAnswer q chosen
  ⟨ansId, subId, q.id, chosen.map (fun c => c.id), g.1, g.2⟩

/-- views.py line 994: `total_score_achieved += points_awarded`, accumulated
over the answer formset. -/
def mcqTotal (answers : List (Question × Option Choice)) : Rat :=
  answers.foldl (fun acc qc => acc + (gradeAnswer qc.1 qc.2).2) 0

/-- One StudentAnswer row per formset form, with consecutive fresh ids. -/
def numberAnswers (base subId : Nat) :
    List (Question × Option Choice) → List StudentAnswerRow
  | [] => []
  | qc :: rest => mkStudentAnswerRow base subId qc.1 qc.2 ::
      numberAnswers (base + 1) subId rest

/-- views.py lines 954-1023, the MCQ branch of submit_assignment on POST. A
graded submission is rejected with an error message and nothing changes.
Otherwise, inside transaction.atomic: the Submission is created with
`is_graded=True` (or the existing one is flagged graded); one StudentAnswer
row per question is written (the StudentAnswerForm and
BaseStudentAnswerFormSet classes are missing from src/, so the
create-or-update of this submission's answer rows is modelled as replacing
them); and the total is written through `Score.objects.update_or_create`
keyed on (assignment, student). -/
def submitMcqPost (st : GradeState) (a : Assignment) (sId userId : Nat)
    (answers : List (Question × Option Choice)) : GradeState × Bool :=
  if isGradedFor st a.id sId then (st, false)
  else
    let existing := findSubmission st.submissions a.id sId
    let subId := match existing with
      | some s => s.id
      | none => nextSubmissionId st.submissions
    let submissions2 := match existing with
      | some s => st.submissions.map (fun r =>
          if r.id = s.id then { r with is_graded := true } else r)
      | none => st.submissions ++ [⟨subId, a.id, sId, "MCQ Submission", true⟩]
    let base := st.answers.foldl (fun m r => max m r.id) 0 + 1
    let answers2 := st.answers.filter (fun r => r.submissionId ≠ subId) ++
      numberAnswers base subId answers
    let scores2 := updateOrCreateScore st.scores a.id sId (mcqTotal answers) userId
    ({ submissions := submissions2, answers := answers2, scores := scores2 }, true)

/-- One question form of the create_mcq_questions POST, with its attached
choice formset summarized by the number of its surviving choices that are
marked correct. The QuestionForm class is missing from src/; it is modelled
from the spec and from its usage in the view as a plain model form over
(question_text, points). On POST the view rebuilds the formset from the
request data without binding instances (views.py line 294), so saving a form
always inserts a new Question row. -/
structure McqQuestionFormData where
  deleteFlag : Bool
  question_text : String
  points : Rat
  correctChoiceCount : Nat
deriving DecidableEq, Repr

/-- Auto-increment primary key for a fresh Question row. -/
def nextQuestionId (qs : List Question) : Nat :=
  qs.foldl (fun m r => max m r.id) 0 + 1

/-- Deletion by form index (views.py lines 308-311): a form whose DELETE box
is ticked removes the pre-existing question at the same position, when there
is one; a non-deleted form leaves the pre-existing question at its position
untouched (the POST form is not bound to it). -/
def keptExistingQuestions : List Question → List McqQuestionFormData → List Question
  | [], _ => []
  | q :: qs, [] => q :: qs
  | q :: qs, f :: fs =>
      if f.deleteFlag then keptExistingQuestions qs fs
      else q :: keptExistingQuestions qs fs

/-- One new Question row per surviving form, with consecutive fresh ids. -/
def numberQuestions (baseId : Nat) : List McqQuestionFormData → List Question
  | [] => []
  | f :: fs => ⟨baseId, f.question_text, f.points⟩ :: numberQuestions (baseId + 1) fs

/-- views.py lines 293-332, the POST handling of create_mcq_questions inside
transaction.atomic. Every non-deleted form saves a NEW Question row together
with its choices; if the surviving choices of some saved question do not
contain exactly one correct choice, a ValidationError aborts and rolls back
the whole edit. On success `assignment.max_score` is set to the accumulated
`total_score`, the sum of the newly saved questions' points. Returns the
assignment's question rows and its max_score after the edit. -/
def createMcqQuestionsPost (existing : List Question)
    (forms : List McqQuestionFormData) : Except String (List Question × Rat) :=
  let survivors := forms.filter (fun f => !f.deleteFlag)
  if survivors.all (fun f => f.correctChoiceCount = 1) then
    let newQs := numberQuestions (nextQuestionId existing) survivors
    let total := (survivors.map (fun f => f.points)).sum
    Except.ok (keptExistingQuestions existing forms ++ newQs, total)
  else Except.error "You must select exactly one correct answer."

/-- Sum of the point values of an assignment's question rows (the invariant
the spec states for `max_score`). -/
def sumQuestionPoints (qs : List Question) : Rat :=
  (qs.map (fun q => q.points)).sum

/-! ## Helper lemmas -/

/-- The report-card accumulator pair computes the two list sums. -/
theorem reportTotals_eq (scores : List ScoredAssignment) :
    reportTotals scores = (totalAchieved scores, totalMaxScore scores) := by
  have h : ∀ (l : List ScoredAssignment) (a b : Rat),
      l.foldl (fun acc s => (acc.1 + s.score_achieved, acc.2 + (s.max_score : Rat))) (a, b)
        = (a + totalAchieved l, b + totalMaxScore l) := by
    intro l
    induction l with
    | nil => intro a b; simp [totalAchieved, totalMaxScore]
    | cons x xs ih =>
        intro a b
        simp only [List.foldl_cons, ih, totalAchieved, totalMaxScore, List.map_cons,
          List.sum_cons]
        simp only [Prod.mk.injEq]
        exact ⟨by ring, by ring⟩
  simpa [reportTotals] using h scores 0 0

/-- The overwriting function of update_or_create does not change a row's
(student, assignment) key. -/
theorem scoreKey_update (aId sId : Nat) (v : Rat) (t : Nat) (r : ScoreRow) :
    scoreKey aId sId (if scoreKey aId sId r then
      { r with score_achieved := v, recorded_by := some t } else r) =
    scoreKey aId sId r := by
  by_cases hk : scoreKey aId sId r = true
  · rw [if_pos hk]
    rfl
  · rw [if_neg hk]

/-- Specification of `Score.objects.update_or_create`: on a table holding at
most one row with the key, the result holds exactly one row with the key and
its value is the written one; when a keyed row already existed, the table's
size is unchanged (the row is overwritten in place). -/
theorem updateOrCreateScore_spec (db : List ScoreRow) (aId sId : Nat)
    (v : Rat) (t : Nat) (h : (db.filter (scoreKey aId sId)).length ≤ 1) :
    ((updateOrCreateScore db aId sId v t).filter (scoreKey aId sId)).map
      (fun r => r.score_achieved) = [v] ∧
    (db.any (scoreKey aId sId) = true →
      (updateOrCreateScore db aId sId v t).length = db.length) := by
  by_cases hany : db.any (scoreKey aId sId) = true
  · have hfilne : db.filter (scoreKey aId sId) ≠ [] := by
      rcases List.any_eq_true.mp hany with ⟨x, hx, hpx⟩
      intro hnil
      have hmem : x ∈ db.filter (scoreKey aId sId) :=
        List.mem_filter.mpr ⟨hx, hpx⟩
      rw [hnil] at hmem
      exact absurd hmem (List.not_mem_nil x)
    have hlen1 : (db.filter (scoreKey aId sId)).length = 1 := by
      have hpos : 0 < (db.filter (scoreKey aId sId)).length :=
        List.length_pos.mpr hfilne
      omega
    rcases List.length_eq_one.mp hlen1 with ⟨r0, hr0⟩
    have hkr0 : scoreKey aId sId r0 = true := by
      have hmem : r0 ∈ db.filter (scoreKey aId sId) := by
        rw [hr0]
        exact List.mem_cons_self r0 []
      exact (List.mem_filter.mp hmem).2
    constructor
    · rw [updateOrCreateScore, if_pos hany, List.filter_map]
      have hcong : List.filter (scoreKey aId sId ∘ fun r =>
          if scoreKey aId sId r = true then
            { r with score_achieved := v, recorded_by := some t } else r) db =
          List.filter (scoreKey aId sId) db :=
        List.filter_congr (fun r _ => scoreKey_update aId sId v t r)
      rw [hcong, hr0]
      simp [hkr0]
    · intro _
      rw [updateOrCreateScore, if_pos hany, List.length_map]
  · have hfil : db.filter (scoreKey aId sId) = [] := by
      rw [List.filter_eq_nil_iff]
      intro a ha hpa
      exact hany (List.any_eq_true.mpr ⟨a, ha, hpa⟩)
    constructor
    · rw [updateOrCreateScore, if_neg hany, List.filter_append, hfil]
      simp [scoreKey]
    · intro hc
      exact absurd hc hany

/-! ## Claim theorems -/

/-- Claim C3, counterexample to the claim as stated: the parent dashboard
(views.py lines 89-96) does not equal the exact percentage ratio — for a
single score of 1 out of 3 it stores the value rounded to two decimal places
(33.33), not 100/3. -/
theorem claim3_counterexample :
    dashboardTermAverage [⟨1, 3, "Math"⟩] ≠
      totalAchieved [⟨1, 3, "Math"⟩] / totalMaxScore [⟨1, 3, "Math"⟩] * 100 := by
  have h1 : totalAchieved [⟨1, 3, "Math"⟩] = 1 := by norm_num [totalAchieved]
  have h2 : totalMaxScore [⟨1, 3, "Math"⟩] = 3 := by norm_num [totalMaxScore]
  have hfl : ⌊((1 : Rat) / 3 * 100 * 100)⌋ = 3333 := by
    rw [Int.floor_eq_iff]
    norm_num
  simp only [dashboardTermAverage, h1, h2]
  rw [if_pos (by norm_num)]
  simp only [roundTo2, halfEvenRound, hfl]
  rw [if_pos (by norm_num)]
  norm_num

/-- Claim C3 (amended): for a student and term with a positive total possible
maximum, the report card's overall average equals (sum of scores achieved) /
(sum of the scored assignments' maximum scores) × 100, and the subject-scoped
version of the same ratio is the per-subject report-card average; the parent
and student dashboards store this ratio additionally rounded to two decimal
places. -/
theorem claim3_averages (scores : List ScoredAssignment) (name : String)
    (h : 0 < totalMaxScore scores)
    (hs : 0 < totalMaxScore (subjectScores scores name)) :
    overallAverage scores = totalAchieved scores / totalMaxScore scores * 100 ∧
    subjectAverage scores name =
      totalAchieved (subjectScores scores name) /
        totalMaxScore (subjectScores scores name) * 100 ∧
    dashboardTermAverage scores =
      roundTo2 (totalAchieved scores / totalMaxScore scores * 100) := by
  refine ⟨?_, ?_, ?_⟩
  · rw [overallAverage, reportTotals_eq]
    simp only [if_pos h]
  · rw [subjectAverage]
    simp only [if_pos hs]
  · rw [dashboardTermAverage]
    simp only [if_pos h]

/-- Witness for claim C3 at a concrete queryset: one score of 5 out of 10 in
subject Math. -/
theorem claim3_averages_witness :
    (0 : Rat) < totalMaxScore [⟨5, 10, "Math"⟩] ∧
    (0 : Rat) < totalMaxScore (subjectScores [⟨5, 10, "Math"⟩] "Math") ∧
    (overallAverage [⟨5, 10, "Math"⟩] =
        totalAchieved [⟨5, 10, "Math"⟩] / totalMaxScore [⟨5, 10, "Math"⟩] * 100 ∧
      subjectAverage [⟨5, 10, "Math"⟩] "Math" =
        totalAchieved (subjectScores [⟨5, 10, "Math"⟩] "Math") /
          totalMaxScore (subjectScores [⟨5, 10, "Math"⟩] "Math") * 100 ∧
      dashboardTermAverage [⟨5, 10, "Math"⟩] =
        roundTo2 (totalAchieved [⟨5, 10, "Math"⟩] /
          totalMaxScore [⟨5, 10, "Math"⟩] * 100)) :=
  ⟨by norm_num [totalMaxScore],
   by norm_num [totalMaxScore, subjectScores, List.filter],
   claim3_averages [⟨5, 10, "Math"⟩] "Math" (by norm_num [totalMaxScore])
     (by norm_num [totalMaxScore, subjectScores, List.filter])⟩

/-- Claim C4: the remark derived from an overall average is "Needs significant
improvement." below 50, "Satisfactory performance." in [50, 70), and "Good
performance." at or above 70; the boundaries 50 and 70 map to the higher tier
and 49.99 maps to the lowest tier (views.py lines 712-716). -/
theorem claim4_remark_thresholds (a : Rat) :
    (a < 50 → remark a = "Needs significant improvement.") ∧
    (50 ≤ a → a < 70 → remark a = "Satisfactory performance.") ∧
    (70 ≤ a → remark a = "Good performance.") ∧
    remark 50 = "Satisfactory performance." ∧
    remark 70 = "Good performance." ∧
    remark (4999 / 100) = "Needs significant improvement." := by
  refine ⟨?_, ?_, ?_, ?_, ?_, ?_⟩
  · intro h
    rw [remark, if_pos h]
  · intro h1 h2
    rw [remark, if_neg (by linarith), if_pos h2]
  · intro h
    rw [remark, if_neg (by linarith), if_neg (by linarith)]
  · rw [remark, if_neg (by norm_num), if_pos (by norm_num)]
  · rw [remark, if_neg (by norm_num), if_neg (by norm_num)]
  · rw [remark, if_pos (by norm_num)]

/-- Witness for claim C4 at concrete averages 30, 60 and 85. -/
theorem claim4_remark_thresholds_witness :
    remark 30 = "Needs significant improvement." ∧
    remark 60 = "Satisfactory performance." ∧
    remark 85 = "Good performance." :=
  ⟨(claim4_remark_thresholds 30).1 (by norm_num),
   (claim4_remark_thresholds 60).2.1 (by norm_num) (by norm_num),
   (claim4_remark_thresholds 85).2.2.1 (by norm_num)⟩

/-- Claim C9: when a student's recorded scores for a term carry a total
possible maximum of 0 (in particular when there are no recorded scores at
all), both the report-card overall average and the dashboard term average are
exactly 0; the guard takes the zero branch, so the division is never
evaluated and no division error can be raised. -/
theorem claim9_zero_assignments (scores : List ScoredAssignment)
    (h : totalMaxScore scores = 0) :
    overallAverage scores = 0 ∧ dashboardTermAverage scores = 0 := by
  constructor
  · rw [overallAverage, reportTotals_eq]
    simp [h]
  · rw [dashboardTermAverage]
    simp [h]

/-- Witness for claim C9 at the empty queryset. -/
theorem claim9_zero_assignments_witness :
    totalMaxScore ([] : List ScoredAssignment) = 0 ∧
    (overallAverage ([] : List ScoredAssignment) = 0 ∧
      dashboardTermAverage ([] : List ScoredAssignment) = 0) :=
  ⟨by simp [totalMaxScore], claim9_zero_assignments [] (by simp [totalMaxScore])⟩

/-- Claim C1, bug evaluation: through the bulk score-entry formset a score of
150 on an assignment whose max_score is 100 passes validation (the bound
check in ScoreForm.clean_score_achieved reads the nonexistent `assignment`
key of cleaned_data, so it never fires), a negative score of -5 passes
validation as well, and the out-of-range score is persisted as a Score row —
contradicting the claim that such submissions are rejected with no row
written. -/
theorem claim1_score_validation_bug :
    scoreFormIsValid ⟨none, some 7, RawDecimal.value (some 150)⟩ = true ∧
    scoreFormIsValid ⟨none, some 7, RawDecimal.value (some (-5))⟩ = true ∧
    inputScoresPost ⟨1, "Math", 1, 1, 100⟩ 9 []
        [⟨none, some 7, RawDecimal.value (some 150)⟩] =
      ([⟨1, 7, 1, 150, some 9⟩], true) ∧
    ((⟨1, "Math", 1, 1, 100⟩ : Assignment).max_score : Rat) < 150 := by
  refine ⟨rfl, rfl, rfl, by norm_num⟩

/-- Claim C2, bug evaluation: for an already-marked attendance row (student 1,
date 3, class 2, status P, recorded_by 9, timestamp 5), re-submitting the
identical status performs no write (the row keeps recorded_by 9 and
timestamp 5), but submitting a different status does NOT update the row in
place: because the formset never binds the stored row to the form, the view
attempts a fresh insert for the same (student, date, class), the uniqueness
constraint aborts the batch, and the table is returned unchanged with an
error — in both the AJAX save and the mark_attendance POST. -/
theorem claim2_attendance_update_bug :
    saveAttendanceAjaxPost 4 3 2 6 [⟨7, 1, 3, 2, AttStatus.P, some 9, 5⟩]
        [⟨true, false, some 1, some AttStatus.P⟩] =
      ([⟨7, 1, 3, 2, AttStatus.P, some 9, 5⟩], true) ∧
    saveAttendanceAjaxPost 4 3 2 6 [⟨7, 1, 3, 2, AttStatus.P, some 9, 5⟩]
        [⟨true, true, some 1, some AttStatus.A⟩] =
      ([⟨7, 1, 3, 2, AttStatus.P, some 9, 5⟩], false) ∧
    markAttendancePost 4 3 2 6 [⟨7, 1, 3, 2, AttStatus.P, some 9, 5⟩]
        [⟨true, true, some 1, some AttStatus.A⟩] =
      ([⟨7, 1, 3, 2, AttStatus.P, some 9, 5⟩], false) :=
  ⟨rfl, rfl, rfl⟩

/-- Claim C5: bulk score entry and bulk attendance marking are all-or-nothing
with respect to validation — if any form of the batch fails validation, the
request persists zero rows and reports failure. -/
theorem claim5_batch_all_or_nothing
    (a : Assignment) (teacher : Nat) (db : List ScoreRow)
    (forms : List ScoreFormInput) (f : ScoreFormInput)
    (hf : f ∈ forms) (hbad : scoreFormIsValid f = false)
    (teacher2 date classId now : Nat) (adb : List AttendanceRow)
    (aforms : List AttendanceFormPost) (g : AttendanceFormPost)
    (hg : g ∈ aforms) (hgbad : attendanceFormIsValid g = false) :
    inputScoresPost a teacher db forms = (db, false) ∧
    markAttendancePost teacher2 date classId now adb aforms = (adb, false) := by
  have hall : forms.all scoreFormIsValid = false := by
    cases h : forms.all scoreFormIsValid with
    | false => rfl
    | true => exact absurd (List.all_eq_true.mp h f hf) (by simp [hbad])
  have hall2 : aforms.all attendanceFormIsValid = false := by
    cases h : aforms.all attendanceFormIsValid with
    | false => rfl
    | true => exact absurd (List.all_eq_true.mp h g hg) (by simp [hgbad])
  constructor
  · simp [inputScoresPost, hall]
  · simp [markAttendancePost, hall2]

/-- Witness for claim C5: a 10-row score batch whose third row is invalid
(its decimal field does not parse) persists zero rows, and a 2-row
attendance batch whose second row is invalid persists zero rows. -/
theorem claim5_batch_all_or_nothing_witness :
    inputScoresPost ⟨1, "Math", 1, 1, 100⟩ 9 []
        [⟨none, some 1, RawDecimal.value (some 10)⟩,
         ⟨none, some 2, RawDecimal.value (some 20)⟩,
         ⟨none, some 3, RawDecimal.malformed⟩,
         ⟨none, some 4, RawDecimal.value (some 40)⟩,
         ⟨none, some 5, RawDecimal.value (some 50)⟩,
         ⟨none, some 6, RawDecimal.value (some 60)⟩,
         ⟨none, some 7, RawDecimal.value (some 70)⟩,
         ⟨none, some 8, RawDecimal.value (some 80)⟩,
         ⟨none, some 9, RawDecimal.value (some 90)⟩,
         ⟨none, some 10, RawDecimal.value (some 100)⟩] = ([], false) ∧
    markAttendancePost 4 3 2 6 []
        [⟨false, true, some 1, some AttStatus.P⟩,
         ⟨false, true, some 2, none⟩] = ([], false) :=
  claim5_batch_all_or_nothing _ _ _ _
    ⟨none, some 3, RawDecimal.malformed⟩ (by simp) rfl
    _ _ _ _ _ _
    ⟨false, true, some 2, none⟩ (by simp) rfl

/-- Claim C6: in a graded MCQ submission a chosen option earns the question's
full point value exactly when it is marked correct and zero otherwise; the
total of awarded points is written as the student's score through
update_or_create keyed on (assignment, student), so the table ends with
exactly one Score row for that key holding the total, and when a row already
existed it is overwritten in place (the table does not grow). -/
theorem claim6_mcq_grading (st : GradeState) (a : Assignment)
    (sId userId : Nat) (answers : List (Question × Option Choice))
    (q : Question) (c : Choice)
    (hg : isGradedFor st a.id sId = false)
    (huniq : (st.scores.filter (scoreKey a.id sId)).length ≤ 1) :
    gradeAnswer q (some c) =
      (c.is_correct, if c.is_correct then q.points else 0) ∧
    (((submitMcqPost st a sId userId answers).1.scores.filter
        (scoreKey a.id sId)).map (fun r => r.score_achieved)) =
      [mcqTotal answers] ∧
    (st.scores.any (scoreKey a.id sId) = true →
      (submitMcqPost st a sId userId answers).1.scores.length =
        st.scores.length) := by
  have hscores : (submitMcqPost st a sId userId answers).1.scores =
      updateOrCreateScore st.scores a.id sId (mcqTotal answers) userId := by
    simp [submitMcqPost, hg]
  refine ⟨?_, ?_, ?_⟩
  · cases hc : c.is_correct <;> simp [gradeAnswer, hc]
  · rw [hscores]
    exact (updateOrCreateScore_spec st.scores a.id sId (mcqTotal answers)
      userId huniq).1
  · intro hexist
    rw [hscores]
    exact (updateOrCreateScore_spec st.scores a.id sId (mcqTotal answers)
      userId huniq).2 hexist

/-- Witness for claim C6: state with one existing Score row for (assignment 1,
student 7); grading a two-question submission (one correct choice worth 5,
one incorrect) overwrites that row with the total. -/
theorem claim6_mcq_grading_witness :
    gradeAnswer ⟨1, "Q1", 5⟩ (some ⟨1, true⟩) =
      ((⟨1, true⟩ : Choice).is_correct,
       if (⟨1, true⟩ : Choice).is_correct then (⟨1, "Q1", 5⟩ : Question).points
       else 0) ∧
    (((submitMcqPost ⟨[], [], [⟨3, 7, 1, 2, some 9⟩]⟩ ⟨1, "Math", 1, 1, 10⟩
          7 9 [(⟨1, "Q1", 5⟩, some ⟨1, true⟩), (⟨2, "Q2", 5⟩, some ⟨2, false⟩)]).1.scores.filter
        (scoreKey 1 7)).map (fun r => r.score_achieved)) =
      [mcqTotal [(⟨1, "Q1", 5⟩, some ⟨1, true⟩), (⟨2, "Q2", 5⟩, some ⟨2, false⟩)]] ∧
    (([⟨3, 7, 1, 2, some 9⟩] : List ScoreRow).any (scoreKey 1 7) = true →
      (submitMcqPost ⟨[], [], [⟨3, 7, 1, 2, some 9⟩]⟩ ⟨1, "Math", 1, 1, 10⟩
          7 9 [(⟨1, "Q1", 5⟩, some ⟨1, true⟩), (⟨2, "Q2", 5⟩, some ⟨2, false⟩)]).1.scores.length =
        ([⟨3, 7, 1, 2, some 9⟩] : List ScoreRow).length) :=
  claim6_mcq_grading ⟨[], [], [⟨3, 7, 1, 2, some 9⟩]⟩ ⟨1, "Math", 1, 1, 10⟩ 7 9
    [(⟨1, "Q1", 5⟩, some ⟨1, true⟩), (⟨2, "Q2", 5⟩, some ⟨2, false⟩)]
    ⟨1, "Q1", 5⟩ ⟨1, true⟩ rfl (by simp [scoreKey])

/-- Claim C7, bug evaluation: an assignment with one existing 5-point
question, edited by re-submitting one non-deleted 5-point form (with exactly
one correct choice), ends with TWO question rows — the stale original plus a
newly inserted copy — while max_score is set to 5; the sum of the remaining
questions' points is 10 ≠ 5, contradicting the claimed invariant. -/
theorem claim7_max_score_bug :
    createMcqQuestionsPost [⟨1, "Q1", 5⟩] [⟨false, "Q1", 5, 1⟩] =
      Except.ok ([⟨1, "Q1", 5⟩, ⟨2, "Q1", 5⟩], 5) ∧
    sumQuestionPoints [⟨1, "Q1", 5⟩, ⟨2, "Q1", 5⟩] = 10 ∧
    ¬ ((10 : Rat) = 5) := by
  refine ⟨?_, ?_, by norm_num⟩
  · norm_num [createMcqQuestionsPost, keptExistingQuestions, numberQuestions,
      nextQuestionId]
  · norm_num [sumQuestionPoints]

/-- Claim C8: once a submission is flagged graded, both student re-submission
paths — text/file and multiple choice — reject the POST with an error and
leave the submissions, the answers and the scores unchanged. -/
theorem claim8_graded_submission_immutable (st : GradeState) (a : Assignment)
    (sId userId : Nat) (text : String)
    (answers : List (Question × Option Choice))
    (hg : isGradedFor st a.id sId = true) :
    submitTextFilePost st a.id sId text = (st, false) ∧
    submitMcqPost st a sId userId answers = (st, false) := by
  constructor
  · simp [submitTextFilePost, hg]
  · simp [submitMcqPost, hg]

/-- Witness for claim C8: a graded submission of student 7 for assignment 1
survives both re-submission attempts untouched. -/
theorem claim8_graded_submission_immutable_witness :
    submitTextFilePost ⟨[⟨1, 1, 7, "done", true⟩], [], []⟩ 1 7 "new text" =
      (⟨[⟨1, 1, 7, "done", true⟩], [], []⟩, false) ∧
    submitMcqPost ⟨[⟨1, 1, 7, "done", true⟩], [], []⟩ ⟨1, "Math", 1, 1, 10⟩ 7 9
        [(⟨1, "Q1", 5⟩, some ⟨1, true⟩)] =
      (⟨[⟨1, 1, 7, "done", true⟩], [], []⟩, false) :=
  claim8_graded_submission_immutable ⟨[⟨1, 1, 7, "done", true⟩], [], []⟩
    ⟨1, "Math", 1, 1, 10⟩ 7 9 "new text" [(⟨1, "Q1", 5⟩, some ⟨1, true⟩)] rfl

/-- Claim C10: a question for which the student chose no option is recorded
as not correct with zero points awarded, and it contributes zero to the
total score; the grading function is total, so an unanswered question never
makes grading fail. -/
theorem claim10_unanswered_question (ansId subId : Nat) (q : Question)
    (answers : List (Question × Option Choice)) :
    gradeAnswer q none = (false, 0) ∧
    mkStudentAnswerRow ansId subId q none = ⟨ansId, subId, q.id, none, false, 0⟩ ∧
    mcqTotal (answers ++ [(q, none)]) = mcqTotal answers := by
  refine ⟨rfl, rfl, ?_⟩
  rw [mcqTotal, mcqTotal, List.foldl_append]
  simp [gradeAnswer]
